import Mathlib

/-!
Shallow embedding of the crayon resource system core
(`src/resource/resource.rs`): the worker-side load algorithm, the shared
fast path of the client handle, the task protocol with one-shot payload guards,
the per-type arena registry and the extern-system registry, and the worker
loop over a FIFO task queue.

Modelling choices:
- `HashValue<Path>` keys are modelled by the path itself (the spec assumes
  equal paths give equal keys and collisions are negligible).
- `Arc<T::Item>` is modelled by `ArcVal`: a payload plus an allocation
  identifier, so that "the identical shared instance" is expressible.
- Collaborators are parameters: the filesystem driver is a function
  `Path → Option Bytes` (`load_into` append semantics are made explicit in
  the load function), a parser is a function `Bytes → Except Err Bytes`,
  an extern transform is a function `Path → Bytes → Except Err Bytes`.
- The collaborator-owned eviction policy is out of scope; `unload_unused`
  invocations on a wrapper are instrumented as a counter, as are
  filesystem reads, parser invocations and extern transform invocations.
-/

namespace Crayon

abbrev Path := String

abbrev Bytes := List Nat

abbrev TypeIdT := Nat

/-- A reference-counted resource handle (`Arc<T::Item>`): the parsed value
together with an allocation identifier distinguishing instances. -/
structure ArcVal where
  id : Nat
  val : Bytes
deriving DecidableEq

/-- The error taxonomy used by `ResourceSystem::load` and
`ResourceSystem::load_extern` (`ErrorKind` in `errors.rs`). -/
inductive Err where
  | notRegistered
  | circularReferenceFound
  | ioFailure
  | parseFailure
deriving DecidableEq

/-- A resource parser type `T: ResourceParser`: its `T::Item` type id and
its pure `parse` function. -/
structure RType where
  tid : TypeIdT
  parse : Bytes → Except Err Bytes

/-- One registered `ArenaWithCache<T>` behind an `ArenaWrapper`: instance
identity, capacity hint, cached entries keyed by path hash, and a counter
of `unload_unused` invocations (the eviction policy itself is the
collaborator). -/
structure Arena where
  instId : Nat
  capacity : Nat
  entries : List (Path × ArcVal)
  evictions : Nat
deriving DecidableEq

/-- One registered `ExternalResourceSystem` behind its wrapper: instance
identity plus counters of `unload_unused` and of transform invocations. -/
structure ExtSys where
  instId : Nat
  evictions : Nat
  transformCalls : Nat
deriving DecidableEq

/-- Association-list lookup, modelling `HashMap::get`. -/
def lookupA {α β : Type} [DecidableEq α] : List (α × β) → α → Option β
  | [], _ => none
  | (k, v) :: rest, k' => if k = k' then some v else lookupA rest k'

/-- Association-list insert-or-replace, modelling `HashMap::insert`. -/
def insertA {α β : Type} [DecidableEq α] : List (α × β) → α → β → List (α × β)
  | [], k, v => [(k, v)]
  | (k', v') :: rest, k, v =>
    if k' = k then (k, v) :: rest else (k', v') :: insertA rest k v

/-- Association-list in-place update of an existing entry, modelling
`HashMap::get_mut` followed by a mutation. -/
def updateA {α β : Type} [DecidableEq α] : List (α × β) → α → (β → β) → List (α × β)
  | [], _, _ => []
  | (k', v') :: rest, k, f =>
    if k' = k then (k, f v') :: rest else (k', v') :: updateA rest k f

/-- The state touched by the worker and the registries: the per-type arena
map, the extern-system map, the worker-local in-flight set `locks`, the
reusable byte buffer, a fresh-allocation counter, and instrumentation
counters for filesystem reads and parser invocations. -/
structure RState where
  arenas : List (TypeIdT × Arena)
  exts : List (TypeIdT × ExtSys)
  locks : List Path
  buf : Bytes
  nextId : Nat
  fsReads : Nat
  parses : Nat
deriving DecidableEq

/-- Model of `ResourceSystem::register::<T>(size)` (resource.rs:62-72): stores a
fresh empty `ArenaWithCache` for the type id if none is present; otherwise
leaves the registry untouched. -/
def register (tid : TypeIdT) (size : Nat) (st : RState) : RState :=
  match lookupA st.arenas tid with
  | some _ => st
  | none =>
    let ar : Arena := { instId := st.nextId, capacity := size, entries := [], evictions := 0 }
    { st with arenas := insertA st.arenas tid ar, nextId := st.nextId + 1 }

/-- Model of `ResourceSystem::register_extern_system::<S>` (resource.rs:76-85):
stores a fresh wrapper under the type id of the system if none is present. -/
def registerExtSystem (tid : TypeIdT) (st : RState) : RState :=
  match lookupA st.exts tid with
  | some _ => st
  | none =>
    let es : ExtSys := { instId := st.nextId, evictions := 0, transformCalls := 0 }
    { st with exts := insertA st.exts tid es, nextId := st.nextId + 1 }

/-- Model of `ResourceSystem::load::<T>` (resource.rs:181-220), the worker-side load
algorithm, step for step:
1. look the type id up in the arena registry (`NotRegistered` if absent)
   and return any cached handle for the path hash;
2. fail with `CircularReferenceFound` if the hash is in the in-flight set;
3. insert the hash into the in-flight set, read bytes through the driver
   into the reusable buffer (append semantics; the `?` on failure returns
   without removing the hash), parse the appended slice (the `?` on
   failure likewise returns without removing the hash);
4. on success remove the hash, wrap the value in a fresh `Arc`, insert it
   into the arena under the hash, and return it. -/
def ResourceSystem.load (fs : Path → Option Bytes) (T : RType) (path : Path)
    (st : RState) : Except Err ArcVal × RState :=
  let hash := path
  match lookupA st.arenas T.tid with
  | none => (Except.error Err.notRegistered, st)
  | some ar =>
    match lookupA ar.entries hash with
    | some rc => (Except.ok rc, st)
    | none =>
      if hash ∈ st.locks then
        (Except.error Err.circularReferenceFound, st)
      else
        let st1 := { st with locks := hash :: st.locks }
        let start := st1.buf.length
        match fs path with
        | none => (Except.error Err.ioFailure, { st1 with fsReads := st1.fsReads + 1 })
        | some bytes =>
          let st2 := { st1 with buf := st1.buf ++ bytes, fsReads := st1.fsReads + 1 }
          match T.parse (st2.buf.drop start) with
          | Except.error e => (Except.error e, { st2 with parses := st2.parses + 1 })
          | Except.ok v =>
            let st3 := { st2 with locks := st2.locks.erase hash, parses := st2.parses + 1 }
            let rc : ArcVal := { id := st3.nextId, val := v }
            let st4 := { st3 with nextId := st3.nextId + 1 }
            match lookupA st4.arenas T.tid with
            | none => (Except.error Err.notRegistered, st4)
            | some ar2 =>
              let ar3 := { ar2 with entries := insertA ar2.entries hash rc }
              (Except.ok rc, { st4 with arenas := insertA st4.arenas T.tid ar3 })

/-- Model of `ResourceSystem::load_extern::<S>` (resource.rs:161-172): looks the
extern system up by its type id (`NotRegistered` if absent) and invokes
its transform on the base value; the invocation is counted on the
wrapper. -/
def ResourceSystem.loadExt (sTid : TypeIdT)
    (transform : Path → Bytes → Except Err Bytes) (path : Path) (src : Bytes)
    (st : RState) : Except Err ArcVal × RState :=
  match lookupA st.exts sTid with
  | none => (Except.error Err.notRegistered, st)
  | some _ =>
    let st1 := { st with
      exts := updateA st.exts sTid (fun e => { e with transformCalls := e.transformCalls + 1 }) }
    match transform path src with
    | Except.error e => (Except.error e, st1)
    | Except.ok v =>
      (Except.ok { id := st1.nextId, val := v }, { st1 with nextId := st1.nextId + 1 })

/-- The body of the `ExternLoad` closure (resource.rs:280-285): the base
`T`-stage load chained with `and_then` into the `S`-stage transform, so a
base-stage failure short-circuits. -/
def extLoadChain (fs : Path → Option Bytes) (T : RType) (sTid : TypeIdT)
    (transform : Path → Bytes → Except Err Bytes) (path : Path)
    (st : RState) : Except Err ArcVal × RState :=
  match ResourceSystem.load fs T path st with
  | (Except.error e, st1) => (Except.error e, st1)
  | (Except.ok src, st1) => ResourceSystem.loadExt sTid transform path src.val st1

/-- The one-shot result slots: future id mapped to `none` while pending or
`some v` once resolved. -/
abbrev Futures := List (Nat × Option (Except Err ArcVal))

/-- Resolving a oneshot future (`tx.send(v)`). -/
def resolveFut (fu : Futures) (fid : Nat) (v : Except Err ArcVal) : Futures :=
  updateA fu fid (fun _ => some v)

/-- Data captured by a `Load` task closure: the parser type, the path, the
one-shot payload guard (`true` while the `Option` payload is still
present) and the future it resolves. -/
structure LoadTask where
  ty : RType
  path : Path
  payload : Bool
  futId : Nat

/-- Data captured by an `ExternLoad` task closure. -/
structure ExtLoadTask where
  ty : RType
  sTid : TypeIdT
  transform : Path → Bytes → Except Err Bytes
  path : Path
  payload : Bool
  futId : Nat

/-- The task protocol `ResourceTask` (resource.rs:229-245). -/
inductive Task where
  | load (t : LoadTask)
  | extLoad (t : ExtLoadTask)
  | unloadUnused
  | stop

/-- Invoking a `Load` closure (resource.rs:317-325): if the one-shot
payload is still present, take it, run the worker load and resolve the
future; otherwise do nothing. Returns the task as left behind. -/
def execLoadTask (fs : Path → Option Bytes) (t : LoadTask) (st : RState)
    (fu : Futures) : LoadTask × RState × Futures :=
  if t.payload then
    let r := ResourceSystem.load fs t.ty t.path st
    ({ t with payload := false }, r.2, resolveFut fu t.futId r.1)
  else
    (t, st, fu)

/-- Invoking an `ExternLoad` closure (resource.rs:275-286), with the same
one-shot payload guard. -/
def execExtLoadTask (fs : Path → Option Bytes) (t : ExtLoadTask) (st : RState)
    (fu : Futures) : ExtLoadTask × RState × Futures :=
  if t.payload then
    let r := extLoadChain fs t.ty t.sTid t.transform t.path st
    ({ t with payload := false }, r.2, resolveFut fu t.futId r.1)
  else
    (t, st, fu)

/-- Worker branch for `UnloadUnused` (resource.rs:142-147): invokes
`unload_unused` on every registered arena wrapper. It does not touch the
extern-system registry. -/
def execUnloadUnused (st : RState) : RState :=
  { st with arenas := st.arenas.map (fun p => (p.1, { p.2 with evictions := p.2.evictions + 1 })) }

/-- Model of `ResourceSystem::advance` (resource.rs:105-121): synchronously invokes
`unload_unused` on every registered arena and then on every registered
extern system. -/
def advance (st : RState) : RState :=
  { st with
    arenas := st.arenas.map (fun p => (p.1, { p.2 with evictions := p.2.evictions + 1 })),
    exts := st.exts.map (fun p => (p.1, { p.2 with evictions := p.2.evictions + 1 })) }

/-- The worker loop `ResourceSystem::run` (resource.rs:123-152) over a
FIFO queue of tasks: each task is dispatched in order; `Stop` makes the
worker return, abandoning everything still queued behind it. -/
def ResourceSystem.run (fs : Path → Option Bytes) :
    List Task → RState → Futures → RState × Futures
  | [], st, fu => (st, fu)
  | Task.load t :: rest, st, fu =>
    let r := execLoadTask fs t st fu
    ResourceSystem.run fs rest r.2.1 r.2.2
  | Task.extLoad t :: rest, st, fu =>
    let r := execExtLoadTask fs t st fu
    ResourceSystem.run fs rest r.2.1 r.2.2
  | Task.unloadUnused :: rest, st, fu => ResourceSystem.run fs rest (execUnloadUnused st) fu
  | Task.stop :: _, st, fu => (st, fu)

/-- The state visible to the shared client handle: the shared registries
(`rs`), the futures it has handed out, and a fresh future id counter. -/
structure SysState where
  rs : RState
  futures : Futures
  nextFut : Nat

/-- Model of `ResourceSystemShared::load::<T>` (resource.rs:295-332): allocate the
oneshot channel; under the registry lock, if the type is registered and
the arena holds the path hash, resolve the future with the cached handle
and enqueue nothing; otherwise leave the future pending and hand back a
`Load` task with its one-shot payload armed. Returns the future id, the
enqueued task if any, and the updated client state. -/
def ResourceSystemShared.load (T : RType) (path : Path) (sys : SysState) :
    Nat × Option LoadTask × SysState :=
  let fid := sys.nextFut
  let hash := path
  let fastHit : Option ArcVal :=
    match lookupA sys.rs.arenas T.tid with
    | some ar => lookupA ar.entries hash
    | none => none
  match fastHit with
  | some rc =>
    (fid, none,
      { sys with nextFut := fid + 1,
                 futures := insertA sys.futures fid (some (Except.ok rc)) })
  | none =>
    (fid, some { ty := T, path := path, payload := true, futId := fid },
      { sys with nextFut := fid + 1,
                 futures := insertA sys.futures fid none })

/-! Concrete fixtures used by the witnesses and counterexamples. -/

/-- A state with one registered arena for type id 0 (empty cache). -/
def st0 : RState :=
  { arenas := [(0, { instId := 0, capacity := 4, entries := [], evictions := 0 })],
    exts := [], locks := [], buf := [], nextId := 1, fsReads := 0, parses := 0 }

/-- A parser type for type id 0 whose parse always fails. -/
def T0 : RType := { tid := 0, parse := fun _ => Except.error Err.parseFailure }

/-- A parser type for type id 0 whose parse returns the bytes unchanged. -/
def TOk : RType := { tid := 0, parse := fun b => Except.ok b }

/-- A filesystem with a single file at path `a`. -/
def fs0 : Path → Option Bytes := fun p => if p = "a" then some [104, 105] else none

/-- The state after the successful load of path `a` into st0. -/
def st1W : RState := (ResourceSystem.load fs0 TOk "a" st0).2

/-- The handle produced by that successful load. -/
def rcW : ArcVal := { id := 1, val := [104, 105] }

/-- A client-handle state whose registries are st1W. -/
def sysW : SysState := { rs := st1W, futures := [], nextFut := 0 }

/-- st0 with path `a` already in the in-flight set. -/
def stL : RState :=
  { arenas := [(0, { instId := 0, capacity := 4, entries := [], evictions := 0 })],
    exts := [], locks := ["a"], buf := [], nextId := 1, fsReads := 0, parses := 0 }

/-- A state with one registered extern system under type id 5. -/
def stE : RState :=
  { arenas := [], exts := [(5, { instId := 0, evictions := 0, transformCalls := 0 })],
    locks := [], buf := [], nextId := 1, fsReads := 0, parses := 0 }

/-- An armed load task for path `a` resolving future 0. -/
def tP : LoadTask := { ty := TOk, path := "a", payload := true, futId := 0 }

/-- An armed load task for path `a` with the always-failing parser. -/
def tF : LoadTask := { ty := T0, path := "a", payload := true, futId := 0 }

/-- A state with no registrations at all. -/
def stEmpty : RState :=
  { arenas := [], exts := [], locks := [], buf := [], nextId := 0, fsReads := 0, parses := 0 }

/-- A client-handle state over the empty registries. -/
def sysEmpty : SysState := { rs := stEmpty, futures := [], nextFut := 0 }

/-! Association-list lemmas. -/

theorem lookupA_insertA_self {α β : Type} [DecidableEq α] (m : List (α × β)) (k : α) (v : β) :
    lookupA (insertA m k v) k = some v := by
  induction m with
  | nil => simp [insertA, lookupA]
  | cons hd tl ih =>
    obtain ⟨k', v'⟩ := hd
    by_cases h : k' = k <;> simp [insertA, lookupA, h, ih]

theorem lookupA_map {α β : Type} [DecidableEq α] (m : List (α × β)) (f : β → β) (k : α) :
    lookupA (m.map (fun p => (p.1, f p.2))) k = (lookupA m k).map f := by
  induction m with
  | nil => rfl
  | cons hd tl ih =>
    obtain ⟨k', v'⟩ := hd
    by_cases h : k' = k <;> simp [lookupA, h, ih]

/-- Running `ResourceSystem::load` never touches the extern-system registry. -/
theorem load_exts_unchanged (fs : Path → Option Bytes) (T : RType) (path : Path) (st : RState) :
    (ResourceSystem.load fs T path st).2.exts = st.exts := by
  simp only [ResourceSystem.load]
  split
  · rfl
  · split
    · rfl
    · split
      · rfl
      · split
        · rfl
        · split
          · rfl
          · split
            · rfl
            · rfl

/-- On every error outcome of `ResourceSystem::load` the arena registry
and its cache contents are returned exactly as they were. -/
theorem load_error_arenas_unchanged (fs : Path → Option Bytes) (T : RType) (path : Path)
    (st st' : RState) (e : Err)
    (h : ResourceSystem.load fs T path st = (Except.error e, st')) :
    st'.arenas = st.arenas := by
  simp only [ResourceSystem.load] at h
  split at h
  · simp_all
  · split at h
    · simp_all
    · split at h
      · simp_all
      · split at h
        · obtain ⟨-, h2⟩ := Prod.mk.injEq .. ▸ h
          subst h2
          rfl
        · split at h
          · obtain ⟨-, h2⟩ := Prod.mk.injEq .. ▸ h
            subst h2
            rfl
          · split at h
            · obtain ⟨-, h2⟩ := Prod.mk.injEq .. ▸ h
              subst h2
              rfl
            · simp_all

/-- A successful `ResourceSystem::load` leaves the returned handle cached
in the arena of the type under the path hash. -/
theorem load_ok_cached (fs : Path → Option Bytes) (T : RType) (path : Path)
    (st st' : RState) (rc : ArcVal)
    (h : ResourceSystem.load fs T path st = (Except.ok rc, st')) :
    ∃ ar, lookupA st'.arenas T.tid = some ar ∧ lookupA ar.entries path = some rc := by
  simp only [ResourceSystem.load] at h
  split at h
  · simp_all
  · split at h
    · rename_i s1 arx h1 rc' h2
      rw [Prod.mk.injEq] at h
      obtain ⟨h3, h4⟩ := h
      subst h4
      exact ⟨s1, arx, by rw [h2]; exact congrArg some (Except.ok.inj h3)⟩
    · split at h
      · simp_all
      · split at h
        · simp_all
        · split at h
          · simp_all
          · split at h
            · simp_all
            · rw [Prod.mk.injEq] at h
              obtain ⟨h3, h4⟩ := h
              subst h4
              refine ⟨_, lookupA_insertA_self .., ?_⟩
              rw [lookupA_insertA_self]
              exact congrArg some (Except.ok.inj h3)

/-! Claim theorems. -/

/-- C1: the claim says the in-flight key is removed on every outcome of
the Load execution. The code removes it only on the success path: the
early returns on a filesystem read failure and on a parse failure skip
`locks.remove(&hash)`, so the key stays in the InFlightSet and a retry of
the same path is rejected as CircularReferenceFound. This theorem
evaluates the model at both failing inputs. -/
theorem c1_failed_load_leaves_key_in_flight :
    (ResourceSystem.load fs0 T0 "a" st0).1 = Except.error Err.parseFailure ∧
    (ResourceSystem.load fs0 T0 "a" st0).2.locks = ["a"] ∧
    (ResourceSystem.load fs0 T0 "a" (ResourceSystem.load fs0 T0 "a" st0).2).1 =
      Except.error Err.circularReferenceFound ∧
    (ResourceSystem.load fs0 T0 "b" st0).1 = Except.error Err.ioFailure ∧
    (ResourceSystem.load fs0 T0 "b" st0).2.locks = ["b"] :=
  ⟨rfl, rfl, rfl, rfl, rfl⟩

/-- C2: after a successful worker load of path P for type T, a second
`ResourceSystemShared::load` of the same P and T resolves synchronously
from the cache-lookup fast path with the identical shared handle: no task
is enqueued, the future is already resolved with the very same
reference-counted instance, and the registries (including the filesystem
read and parser invocation counters) are untouched. -/
theorem c2_cache_hit_returns_identical_handle (fs : Path → Option Bytes) (T : RType)
    (path : Path) (st st' : RState) (rc : ArcVal) (sys : SysState)
    (hload : ResourceSystem.load fs T path st = (Except.ok rc, st'))
    (hsys : sys.rs = st') :
    (ResourceSystemShared.load T path sys).2.1 = none ∧
    lookupA (ResourceSystemShared.load T path sys).2.2.futures
      (ResourceSystemShared.load T path sys).1 = some (some (Except.ok rc)) ∧
    (ResourceSystemShared.load T path sys).2.2.rs = sys.rs := by
  obtain ⟨ar, h1, h2⟩ := load_ok_cached fs T path st st' rc hload
  rw [← hsys] at h1
  refine ⟨?_, ?_, ?_⟩ <;> simp [ResourceSystemShared.load, h1, h2, lookupA_insertA_self]

/-- C2 witness: a concrete successful load of path `a` followed by a
shared load of `a` that resolves from the fast path with the same
instance. -/
theorem c2_witness :
    ResourceSystem.load fs0 TOk "a" st0 = (Except.ok rcW, st1W) ∧
    (ResourceSystemShared.load TOk "a" sysW).2.1 = none ∧
    lookupA (ResourceSystemShared.load TOk "a" sysW).2.2.futures
      (ResourceSystemShared.load TOk "a" sysW).1 = some (some (Except.ok rcW)) :=
  have h := c2_cache_hit_returns_identical_handle fs0 TOk "a" st0 st1W rcW sysW rfl rfl
  ⟨rfl, h.1, h.2.1⟩

/-- C3: in the worker Load execution, when the type is registered, the
cache misses and the key is already in the InFlightSet, the load returns
CircularReferenceFound and the state is returned exactly as it was: no
filesystem read, no parse, and the in-flight bookkeeping of the outer
load is untouched, so the outer result is unaffected. -/
theorem c3_circular_reference_rejected (fs : Path → Option Bytes) (T : RType)
    (path : Path) (st : RState) (ar : Arena)
    (hreg : lookupA st.arenas T.tid = some ar)
    (hmiss : lookupA ar.entries path = none)
    (hlock : path ∈ st.locks) :
    ResourceSystem.load fs T path st = (Except.error Err.circularReferenceFound, st) := by
  simp [ResourceSystem.load, hreg, hmiss, hlock]

/-- C3 witness: a nested load of path `a` while `a` is in flight fails
with CircularReferenceFound and changes nothing. -/
theorem c3_witness :
    lookupA stL.arenas T0.tid =
      some { instId := 0, capacity := 4, entries := [], evictions := 0 } ∧
    "a" ∈ stL.locks ∧
    ResourceSystem.load fs0 T0 "a" stL = (Except.error Err.circularReferenceFound, stL) :=
  ⟨rfl, by decide,
    c3_circular_reference_rejected fs0 T0 "a" stL
      { instId := 0, capacity := 4, entries := [], evictions := 0 } rfl rfl (by decide)⟩

/-- C4: in the chained ExternLoad closure, a failure of the base T-stage
load short-circuits: the chain returns exactly the base-stage error, and
the extern registry (with its transform invocation counters) is exactly
as before, so the S-stage transform is never invoked. -/
theorem c4_base_failure_short_circuits (fs : Path → Option Bytes) (T : RType)
    (sTid : TypeIdT) (transform : Path → Bytes → Except Err Bytes) (path : Path)
    (st st' : RState) (e : Err)
    (h : ResourceSystem.load fs T path st = (Except.error e, st')) :
    extLoadChain fs T sTid transform path st = (Except.error e, st') ∧
    st'.exts = st.exts := by
  constructor
  · simp only [extLoadChain, h]
  · have h2 := load_exts_unchanged fs T path st
    rw [h] at h2
    exact h2

/-- C4 witness: a concrete chain whose base parse fails reports exactly
the base error and never invokes the transform. -/
theorem c4_witness :
    ResourceSystem.load fs0 T0 "a" st0 =
      (Except.error Err.parseFailure, (ResourceSystem.load fs0 T0 "a" st0).2) ∧
    extLoadChain fs0 T0 5 (fun _ b => Except.ok b) "a" st0 =
      (Except.error Err.parseFailure, (ResourceSystem.load fs0 T0 "a" st0).2) :=
  have h := c4_base_failure_short_circuits fs0 T0 5 (fun _ b => Except.ok b) "a" st0
    (ResourceSystem.load fs0 T0 "a" st0).2 Err.parseFailure rfl
  ⟨rfl, h.1⟩

/-- C5 counterexample: the worker branch for an UnloadUnused task leaves
the extern-system registry untouched: with an extern system registered
under type id 5 and zero `unload_unused` invocations, the count is still
zero after the task runs, so it is false that every registered extern
system has had its `unload_unused` invoked. -/
theorem c5_counterexample :
    lookupA stE.exts 5 = some { instId := 0, evictions := 0, transformCalls := 0 } ∧
    lookupA (execUnloadUnused stE).exts 5 =
      some { instId := 0, evictions := 0, transformCalls := 0 } :=
  ⟨rfl, rfl⟩

/-- C5 amended: when the worker dequeues an eviction task it invokes
`unload_unused` on every registered arena cache, and on nothing else: the
extern-system registry is left exactly as it was. -/
theorem c5_evict_task_arenas_only (st : RState) (tid : TypeIdT) (a : Arena)
    (h : lookupA st.arenas tid = some a) :
    lookupA (execUnloadUnused st).arenas tid =
      some { a with evictions := a.evictions + 1 } ∧
    (execUnloadUnused st).exts = st.exts := by
  refine ⟨?_, rfl⟩
  have hm := lookupA_map st.arenas (fun x => { x with evictions := x.evictions + 1 }) tid
  simp only [execUnloadUnused]
  rw [hm, h]
  rfl

/-- C5 witness: the registered arena of st0 has its eviction count
incremented by the task while the extern registry is unchanged. -/
theorem c5_witness :
    lookupA st0.arenas 0 = some { instId := 0, capacity := 4, entries := [], evictions := 0 } ∧
    lookupA (execUnloadUnused st0).arenas 0 =
      some { instId := 0, capacity := 4, entries := [], evictions := 1 } ∧
    (execUnloadUnused st0).exts = st0.exts :=
  have h := c5_evict_task_arenas_only st0 0
    { instId := 0, capacity := 4, entries := [], evictions := 0 } rfl
  ⟨rfl, h.1, h.2⟩

/-- C6: registering a type that already has an arena is a no-op for any
capacity argument: the whole state, hence the existing arena instance and
all its cached entries, is returned unchanged. -/
theorem c6_register_idempotent (st : RState) (tid : TypeIdT) (n : Nat) (a : Arena)
    (h : lookupA st.arenas tid = some a) :
    register tid n st = st := by
  simp [register, h]

/-- C6 witness: re-registering type id 0 of st0 with a different capacity
leaves the state untouched. -/
theorem c6_witness :
    lookupA st0.arenas 0 = some { instId := 0, capacity := 4, entries := [], evictions := 0 } ∧
    register 0 99 st0 = st0 :=
  ⟨rfl, c6_register_idempotent st0 0 99
    { instId := 0, capacity := 4, entries := [], evictions := 0 } rfl⟩

/-- C7: when the worker executes a Load task whose armed payload leads to
a failing load, the future is resolved with exactly that error and the
arena registry (hence every cache) is exactly what it was before. -/
theorem c7_failed_load_caches_nothing (fs : Path → Option Bytes) (t : LoadTask)
    (st : RState) (fu : Futures) (e : Err)
    (hp : t.payload = true)
    (h : (ResourceSystem.load fs t.ty t.path st).1 = Except.error e) :
    (execLoadTask fs t st fu).2.2 = resolveFut fu t.futId (Except.error e) ∧
    (execLoadTask fs t st fu).2.1.arenas = st.arenas := by
  have h' : ResourceSystem.load fs t.ty t.path st =
      (Except.error e, (ResourceSystem.load fs t.ty t.path st).2) := by
    rw [← h]
  constructor
  · simp [execLoadTask, hp, h]
  · simp only [execLoadTask, hp, if_true]
    exact load_error_arenas_unchanged fs t.ty t.path st _ e h'

/-- C7 witness: a concrete failing load resolves its future with the
parse error and leaves the arena registry of st0 unchanged. -/
theorem c7_witness :
    tF.payload = true ∧
    (ResourceSystem.load fs0 tF.ty tF.path st0).1 = Except.error Err.parseFailure ∧
    (execLoadTask fs0 tF st0 [(0, none)]).2.2 =
      resolveFut [(0, none)] 0 (Except.error Err.parseFailure) ∧
    (execLoadTask fs0 tF st0 [(0, none)]).2.1.arenas = st0.arenas :=
  have h := c7_failed_load_caches_nothing fs0 tF st0 [(0, none)] Err.parseFailure rfl rfl
  ⟨rfl, rfl, h.1, h.2⟩

/-- C8: every Load and ExternLoad task executes at most once: once a task
has been invoked, any second invocation of the callable it left behind is
a no-op on any state and any futures, so the future is resolved at most
once and the work is never done twice. -/
theorem c8_task_executes_at_most_once (fs : Path → Option Bytes) (t : LoadTask)
    (t' : ExtLoadTask) (st st2 : RState) (fu fu2 : Futures) :
    execLoadTask fs (execLoadTask fs t st fu).1 st2 fu2 =
      ((execLoadTask fs t st fu).1, st2, fu2) ∧
    execExtLoadTask fs (execExtLoadTask fs t' st fu).1 st2 fu2 =
      ((execExtLoadTask fs t' st fu).1, st2, fu2) := by
  constructor
  · cases hp : t.payload <;> simp [execLoadTask, hp]
  · cases hp : t'.payload <;> simp [execExtLoadTask, hp]

/-- C9 counterexample: a load task sitting in the queue behind a Stop is
abandoned when the worker dequeues the Stop: its future is still pending
afterwards, not resolved with a terminal system-unavailable failure. -/
theorem c9_counterexample :
    (ResourceSystem.run fs0 [Task.stop, Task.load tP] st0 [(0, none)]).2 = [(0, none)] :=
  rfl

/-- C9 amended: tasks the worker dequeues before the Stop execute exactly
as they would without it, and every task queued behind the Stop is
abandoned: running the queue up to and past the Stop equals running only
the part before it, so abandoned loads leave their futures unresolved
(no SystemUnavailable resolution exists in the code). -/
theorem c9_stop_abandons_queued_tasks (fs : Path → Option Bytes) (pre post : List Task)
    (st : RState) (fu : Futures) :
    ResourceSystem.run fs (pre ++ Task.stop :: post) st fu =
      ResourceSystem.run fs pre st fu := by
  induction pre generalizing st fu with
  | nil => rfl
  | cons hd tl ih => cases hd <;> simp [ResourceSystem.run, ih]

/-- C10: a shared load for a type with no registered arena does not fail
on the caller thread: the fast path silently skips the missing registry
entry, hands back an armed Load task and a pending future, leaves the
registries untouched, and when the worker later executes that task the
future is resolved with NotRegistered. -/
theorem c10_unregistered_load_defers_error (fs : Path → Option Bytes) (T : RType)
    (path : Path) (sys : SysState)
    (h : lookupA sys.rs.arenas T.tid = none) :
    (ResourceSystemShared.load T path sys).2.1 =
      some { ty := T, path := path, payload := true, futId := sys.nextFut } ∧
    lookupA (ResourceSystemShared.load T path sys).2.2.futures sys.nextFut = some none ∧
    (ResourceSystemShared.load T path sys).2.2.rs = sys.rs ∧
    ∀ fu : Futures,
      (execLoadTask fs { ty := T, path := path, payload := true, futId := sys.nextFut }
          sys.rs fu).2.1 = sys.rs ∧
      (execLoadTask fs { ty := T, path := path, payload := true, futId := sys.nextFut }
          sys.rs fu).2.2 = resolveFut fu sys.nextFut (Except.error Err.notRegistered) := by
  refine ⟨?_, ?_, ?_, ?_⟩
  · simp [ResourceSystemShared.load, h]
  · simp [ResourceSystemShared.load, h, lookupA_insertA_self]
  · simp [ResourceSystemShared.load, h]
  · intro fu
    constructor <;> simp [execLoadTask, ResourceSystem.load, h]

/-- C10 witness: a load for unregistered type id 0 against an empty
registry enqueues an armed task with a pending future, and the worker
resolves that future with NotRegistered. -/
theorem c10_witness :
    lookupA sysEmpty.rs.arenas TOk.tid = none ∧
    (ResourceSystemShared.load TOk "x" sysEmpty).2.1 =
      some { ty := TOk, path := "x", payload := true, futId := 0 } ∧
    lookupA (ResourceSystemShared.load TOk "x" sysEmpty).2.2.futures 0 = some none ∧
    (execLoadTask fs0 { ty := TOk, path := "x", payload := true, futId := 0 }
        sysEmpty.rs [(0, none)]).2.2 =
      resolveFut [(0, none)] 0 (Except.error Err.notRegistered) :=
  have h := c10_unregistered_load_defers_error fs0 TOk "x" sysEmpty rfl
  ⟨rfl, h.1, h.2.1, (h.2.2.2 [(0, none)]).2⟩

end Crayon
